import Mathlib

/-!
Shallow embedding of the dual-path prediction engine of this repository
(`ai-service/model_inference.py` and `ai-service/services/recommendations.py`)
and proofs of the spec's claims about it.

Modelling conventions:
* Python floats are embedded as exact rationals (`ℚ`).
* `np.random.normal(0, 5)` is embedded as an explicit perturbation stream
  `noise : ℕ → ℚ` indexed by the loop step.
* The trained models (prophet / sklearn) are external, opaque artifacts.
  Their output — and the possibility that they raise — is passed in as an
  `Option` parameter: `none` models "the trained path raises an exception
  on this attempt", `some out` models a successful library run with
  output `out`.  With the artifact loaded, the recursive except-handler
  retry (`return self.forecast_energy(...)`) re-runs the same attempt,
  so a deterministic failure is one fixed `none`.
* The recursive retry of each inference method is embedded with explicit
  fuel: `fuel = 0` means the recursion has not produced a value within
  that depth, so `∀ fuel, result = none` states nontermination.
* A Python `dict[...]` access that could raise `KeyError` is embedded as
  an `Option`-valued association-list lookup.
-/

namespace AIService

/-- Result dict of `ModelInference.forecast_energy`
(`model_inference.py`): forecast values with confidence bounds and the
provenance tag (`'fallback'` or `'prophet'`). -/
structure ForecastResult where
  forecast : List ℚ
  lower_bound : List ℚ
  upper_bound : List ℚ
  model : String
  deriving Repr, DecidableEq

/-- The fallback loop body of `forecast_energy` (lines 78–84):
`for _ in range(periods): next_val = last + np.random.normal(0, 5);
forecast.append(max(20, next_val)); last = next_val`.
`i` is the current step index into the perturbation stream; note that
`last` is updated to the UNclamped `next_val`. -/
def fallbackLoop (noise : ℕ → ℚ) : ℕ → ℕ → ℚ → List ℚ
  | _, 0, _ => []
  | i, n + 1, last =>
      let next_val := last + noise i
      max 20 next_val :: fallbackLoop noise (i + 1) n next_val

/-- The fallback loop as the spec claim describes it, for comparison
with `fallbackLoop` (a refinement check): the claim says each step
"sets last to that new (clamped) value", i.e. the clamped
`max 20 next_val` is carried into the next step, whereas the source
carries the unclamped `next_val`. -/
def fallbackLoopClampedLast (noise : ℕ → ℚ) : ℕ → ℕ → ℚ → List ℚ
  | _, 0, _ => []
  | i, n + 1, last =>
      let next_val := max 20 (last + noise i)
      next_val :: fallbackLoopClampedLast noise (i + 1) n next_val

/-- The fallback branch of `forecast_energy` (lines 76–91): exponential
smoothing seeded with `historical_data[-1] if historical_data else 100`,
bounds `max(20, x - 10)` / `min(300, x + 10)` mapped over the forecast,
provenance `'fallback'`. -/
def forecastFallback (historical_data : List ℚ) (periods : ℕ)
    (noise : ℕ → ℚ) : ForecastResult :=
  let last : ℚ := historical_data.getLastD 100
  let forecast := fallbackLoop noise 0 periods last
  { forecast := forecast
    lower_bound := forecast.map (fun x => max 20 (x - 10))
    upper_bound := forecast.map (fun x => min 300 (x + 10))
    model := "fallback" }

/-- Python slice `df.iloc[-p:]` on a list of rows: for `p = 0` the slice
`[-0:]` is `[0:]`, i.e. the WHOLE frame; for `p ≥ 1` it is the last
`min p l.length` rows. -/
def ilocLast (p : ℕ) (l : List α) : List α :=
  if p = 0 then l else l.drop (l.length - p)

/-- The trained branch of `forecast_energy` (lines 104–115): the prophet
prediction frame (one `(yhat, yhat_lower, yhat_upper)` row per time
point, over the model's fitted history extended by `periods` future
points) is sliced with `iloc[-periods:]` and its three columns returned
verbatim with provenance `'prophet'`. -/
def prophetResult (frame : List (ℚ × ℚ × ℚ)) (periods : ℕ) : ForecastResult :=
  let future_forecast := ilocLast periods frame
  { forecast := future_forecast.map (fun r => r.1)
    lower_bound := future_forecast.map (fun r => r.2.1)
    upper_bound := future_forecast.map (fun r => r.2.2)
    model := "prophet" }

/-- Embedding of `ModelInference.forecast_energy` (lines 58–118) with explicit fuel for
the recursive except-handler retry.  `loaded` is truthiness of
`self.forecast_model`; `pred` is the outcome of one trained-path attempt
(`none` = the trained path raises, deterministically the same on every
attempt); line 118 `return self.forecast_energy(historical_data, periods)`
is the recursive call on identical arguments. -/
def forecast_energy (loaded : Bool) (pred : Option (List (ℚ × ℚ × ℚ)))
    (historical_data : List ℚ) (periods : ℕ) (noise : ℕ → ℚ) :
    ℕ → Option ForecastResult
  | 0 => none
  | fuel + 1 =>
      if loaded = false then
        some (forecastFallback historical_data periods noise)
      else
        match pred with
        | some frame => some (prophetResult frame periods)
        | none => forecast_energy loaded pred historical_data periods noise fuel

/-- Result dict of `ModelInference.detect_anomalies`
(`model_inference.py`): anomaly flag, score and provenance tag
(`'heuristic'` or `'isolation_forest'`). -/
structure AnomalyResult where
  is_anomaly : Bool
  anomaly_score : ℚ
  model : String
  deriving Repr, DecidableEq

/-- The fallback branch of `detect_anomalies` (lines 137–151): a score
accumulated from 0 (+0.3 if temperature > 80, +0.3 if vibration > 5,
+0.2 if power > 250), capped by `min(1.0, ·)`; `is_anomaly` iff the
uncapped accumulated score exceeds 0.4; provenance `'heuristic'`. -/
def detectAnomaliesFallback (power temperature vibration : ℚ) : AnomalyResult :=
  let s0 : ℚ := 0
  let s1 := if temperature > 80 then s0 + 0.3 else s0
  let s2 := if vibration > 5 then s1 + 0.3 else s1
  let s3 := if power > 250 then s2 + 0.2 else s2
  { is_anomaly := decide (s3 > 0.4)
    anomaly_score := min 1 s3
    model := "heuristic" }

/-- Embedding of `ModelInference.detect_anomalies` (lines 120–171) with explicit fuel
for the recursive except-handler retry.  `loaded` is truthiness of
`self.anomaly_model and self.anomaly_scaler`; the trained path runs the
external sklearn scorer, so its outcome is the opaque parameter
`trained` (`none` = that attempt raises); line 171 is the recursive call
on identical arguments. -/
def detect_anomalies (loaded : Bool) (trained : Option AnomalyResult)
    (power temperature vibration runtime production : ℚ) :
    ℕ → Option AnomalyResult
  | 0 => none
  | fuel + 1 =>
      if loaded = false then
        some (detectAnomaliesFallback power temperature vibration)
      else
        match trained with
        | some out => some out
        | none =>
            detect_anomalies loaded trained power temperature vibration
              runtime production fuel

/-- Result dict of `ModelInference.recommend_maintenance`
(`model_inference.py`): risk level, urgency band, recommendation text
and provenance tag (`'heuristic'` or `'random_forest'`). -/
structure MaintenanceResult where
  risk_level : ℤ
  urgency : String
  recommendation : String
  model : String
  deriving Repr, DecidableEq

/-- The `urgency_map` dict of `recommend_maintenance` (lines 200–205),
as an association list keyed by risk level. -/
def urgency_map : List (ℤ × String) :=
  [(0, "NONE"), (1, "LOW"), (2, "MEDIUM"), (3, "HIGH")]

/-- Python `int(q)` on a float: truncation toward zero. -/
def intTrunc (q : ℚ) : ℤ :=
  if q < 0 then -⌊-q⌋ else ⌊q⌋

/-- The fallback branch of `recommend_maintenance` (lines 190–212): a
risk score accumulated from 0 (+1 if temperature > 80, +1 if
vibration > 5, +0.5 if power > 250), truncated and clamped by
`min(3, int(risk_score))`, looked up in `urgency_map` (a dict access
that would raise `KeyError` off 0..3, hence the `Option`);
recommendation text by `risk_score > 1`; provenance `'heuristic'`. -/
def recommendMaintenanceFallback (power temperature vibration : ℚ) :
    Option MaintenanceResult :=
  let r0 : ℚ := 0
  let r1 := if temperature > 80 then r0 + 1 else r0
  let r2 := if vibration > 5 then r1 + 1 else r1
  let risk_score := if power > 250 then r2 + 0.5 else r2
  match urgency_map.lookup (min 3 (intTrunc risk_score)) with
  | some u =>
      some { risk_level := min 3 (intTrunc risk_score)
             urgency := u
             recommendation :=
               if risk_score > 1 then "Schedule routine maintenance"
               else "Normal operation"
             model := "heuristic" }
  | none => none

/-- The risk score as the spec claim describes it, for comparison with
the accumulation inside `recommendMaintenanceFallback` (definition
follows the claim's words): the sum of 1 if temperature > 80, 1 if
vibration > 5, and 0.5 if power > 250. -/
def riskScoreClaim (power temperature vibration : ℚ) : ℚ :=
  (if temperature > 80 then 1 else 0) + (if vibration > 5 then 1 else 0) +
    (if power > 250 then 0.5 else 0)

/-- The fixed urgency table as the spec claim describes it
({0: NONE, 1: LOW, 2: MEDIUM, 3: HIGH}), total on ℤ for convenience;
it is only ever queried at `min 3 ⌊risk_score⌋ ∈ {0, 1, 2}`. -/
def urgencyTableClaim (k : ℤ) : String :=
  if k = 0 then "NONE"
  else if k = 1 then "LOW"
  else if k = 2 then "MEDIUM"
  else "HIGH"

/-- Embedding of `ModelInference.recommend_maintenance` (lines 173–243) with explicit
fuel for the recursive except-handler retry.  `loaded` is truthiness of
`self.recommendation_model and self.recommendation_scaler`; the trained
path runs the external sklearn regressor, so its outcome is the opaque
parameter `trained` (`none` = that attempt raises); line 243 is the
recursive call on identical arguments. -/
def recommend_maintenance (loaded : Bool) (trained : Option MaintenanceResult)
    (power temperature vibration runtime production : ℚ) :
    ℕ → Option MaintenanceResult
  | 0 => none
  | fuel + 1 =>
      if loaded = false then
        recommendMaintenanceFallback power temperature vibration
      else
        match trained with
        | some out => some out
        | none =>
            recommend_maintenance loaded trained power temperature vibration
              runtime production fuel

/-- One reading dict passed to `generate_recommendations`
(`services/recommendations.py`); the function reads only
`r.get("power", 0)` and `r.get("temperature", 0)`, so each key may be
absent (`none`). -/
structure Reading where
  power : Option ℚ
  temperature : Option ℚ
  deriving Repr, DecidableEq

/-- One alert dict passed to `generate_recommendations`; the function
reads only `a.get("severity")`. -/
structure Alert where
  severity : Option String
  deriving Repr, DecidableEq

/-- One entry of the `recommendations` list built by
`generate_recommendations`: the estimated savings figure (or `None`) and
the priority tag.  The human-readable `content` f-string is
presentation-only float formatting and carries no other data, so it is
not modelled. -/
structure Recommendation where
  savings : Option ℚ
  priority : String
  deriving Repr, DecidableEq

/-- The dict returned by `generate_recommendations`. -/
structure RecReport where
  recommendations : List Recommendation
  efficiency_score : ℚ
  deriving Repr, DecidableEq

/-- Numpy mean `np.mean` over a list of rationals (callers guard against the empty
list, on which numpy would warn and return NaN). -/
def npMean (l : List ℚ) : ℚ := l.sum / (l.length : ℚ)

/-- Numpy max `np.max` over a list of rationals; the caller guarantees the list is
nonempty (numpy raises on an empty array), so the fold seed `l.headD 0`
is always an element of the list. -/
def npMax (l : List ℚ) : ℚ := l.foldl max (l.headD 0)

/-- Population variance `np.var` over a list of rationals. -/
def npVar (l : List ℚ) : ℚ :=
  (l.map (fun x => (x - npMean l) ^ 2)).sum / (l.length : ℚ)

/-- Extraction `powers = [r.get("power", 0) for r in readings]`. -/
def powersOf (readings : List Reading) : List ℚ :=
  readings.map (fun r => r.power.getD 0)

/-- Extraction `temps = [r.get("temperature", 0) for r in readings]`. -/
def tempsOf (readings : List Reading) : List ℚ :=
  readings.map (fun r => r.temperature.getD 0)

/-- Filter `critical_alerts = [a for a in alerts if a.get("severity") in
["CRITICAL", "HIGH"]]`. -/
def criticalAlerts (alerts : List Alert) : List Alert :=
  alerts.filter (fun a => a.severity == some "CRITICAL" || a.severity == some "HIGH")

/-- Embedding of `generate_recommendations` (`services/recommendations.py`, lines
5–99): early return on empty readings; `np.mean` / `np.max` /
population `np.var` over the extracted powers and temperatures; five
sequential penalty rules each appending one entry; a default rule 6
entry when none triggered; final clamp of the score to [0, 100]. -/
def generate_recommendations (machine_id : String) (readings : List Reading)
    (alerts : List Alert) : RecReport :=
  if readings.isEmpty then
    { recommendations := [], efficiency_score := 0 }
  else
    let powers := powersOf readings
    let temps := tempsOf readings
    let avg_power := npMean powers
    let max_power := npMax powers
    let avg_temp := npMean temps
    let power_variance := npVar powers
    let e0 : ℚ := 100
    let recs0 : List Recommendation := []
    let e1 := if avg_power > 30 then e0 - 15 else e0
    let recs1 :=
      if avg_power > 30 then
        recs0 ++ [{ savings := some (avg_power * 0.1 * 24 * 0.12), priority := "HIGH" }]
      else recs0
    let e2 := if avg_temp > 75 then e1 - 10 else e1
    let recs2 :=
      if avg_temp > 75 then recs1 ++ [{ savings := none, priority := "HIGH" }]
      else recs1
    let e3 := if power_variance > 50 then e2 - 8 else e2
    let recs3 :=
      if power_variance > 50 then
        recs2 ++ [{ savings := some (power_variance * 0.005), priority := "MEDIUM" }]
      else recs2
    let e4 := if max_power > avg_power * 1.5 then e3 - 7 else e3
    let recs4 :=
      if max_power > avg_power * 1.5 then
        recs3 ++ [{ savings := some ((max_power - avg_power) * 0.2 * 0.12), priority := "MEDIUM" }]
      else recs3
    let critical_alerts := criticalAlerts alerts
    let e5 := if critical_alerts.isEmpty then e4 else e4 - 20
    let recs5 :=
      if critical_alerts.isEmpty then recs4
      else recs4 ++ [{ savings := none, priority := "CRITICAL" }]
    let recs6 :=
      if recs5.isEmpty then
        [{ savings := some (avg_power * 0.05 * 720 * 0.12), priority := "LOW" }]
      else recs5
    { recommendations := recs6
      efficiency_score := max 0 (min 100 e5) }

/-! Helper lemmas -/

theorem fallbackLoop_length (noise : ℕ → ℚ) :
    ∀ (i n : ℕ) (last : ℚ), (fallbackLoop noise i n last).length = n := by
  intro i n
  induction n generalizing i with
  | zero => intro last; rfl
  | succ n ih => intro last; simp [fallbackLoop, ih]

theorem fallbackLoop_ge_20 (noise : ℕ → ℚ) :
    ∀ (i n : ℕ) (last x : ℚ), x ∈ fallbackLoop noise i n last → 20 ≤ x := by
  intro i n
  induction n generalizing i with
  | zero => intro last x hx; simp [fallbackLoop] at hx
  | succ n ih =>
      intro last x hx
      simp only [fallbackLoop, List.mem_cons] at hx
      rcases hx with h | h
      · rw [h]; exact le_max_left _ _
      · exact ih (i + 1) _ x h

theorem recommendMaintenanceFallback_eq (p t v : ℚ) :
    recommendMaintenanceFallback p t v =
      some { risk_level := min 3 ⌊riskScoreClaim p t v⌋
             urgency := urgencyTableClaim (min 3 ⌊riskScoreClaim p t v⌋)
             recommendation :=
               if riskScoreClaim p t v > 1 then "Schedule routine maintenance"
               else "Normal operation"
             model := "heuristic" } := by
  by_cases h1 : t > 80 <;> by_cases h2 : v > 5 <;> by_cases h3 : p > 250 <;>
    (unfold recommendMaintenanceFallback riskScoreClaim urgencyTableClaim
     simp only [h1, h2, h3, if_true, if_false, ite_true, ite_false]
     norm_num only [intTrunc, min_def]) <;>
    rfl

/-! Theorems for the claims -/

/-- C1 (evidence for the code bug): the spec promises that an exception
inside a trained path triggers exactly one fallback invocation (a
bounded retry that terminates for every finite input), but each of the
three methods retries by re-invoking ITSELF on identical arguments; with
the artifact still loaded and the trained path failing deterministically
(`trained = none` on every attempt), the recursion never takes the
fallback branch and never produces a result, at any recursion depth. -/
theorem trained_failure_retries_forever :
    (∀ (hist : List ℚ) (periods : ℕ) (noise : ℕ → ℚ) (fuel : ℕ),
        forecast_energy true none hist periods noise fuel = none) ∧
    (∀ (p t v r pr : ℚ) (fuel : ℕ),
        detect_anomalies true none p t v r pr fuel = none) ∧
    (∀ (p t v r pr : ℚ) (fuel : ℕ),
        recommend_maintenance true none p t v r pr fuel = none) := by
  refine ⟨?_, ?_, ?_⟩
  · intro hist periods noise fuel
    induction fuel with
    | zero => rfl
    | succ n ih => simp [forecast_energy, ih]
  · intro p t v r pr fuel
    induction fuel with
    | zero => rfl
    | succ n ih => simp [detect_anomalies, ih]
  · intro p t v r pr fuel
    induction fuel with
    | zero => rfl
    | succ n ih => simp [recommend_maintenance, ih]

/-- C4 (counterexample): the claim says the fallback anomaly score of the
reading `{power: 1000, temperature: 200, vibration: 50}` is 1.0 with the
cap reached; in fact the accumulated score is 0.3 + 0.3 + 0.2 = 0.8, so
the returned score is not 1. -/
theorem anomaly_extreme_score_not_one :
    (detectAnomaliesFallback 1000 200 50).anomaly_score ≠ 1 := by
  norm_num [detectAnomaliesFallback, min_def]

/-- C4 (amended): on the anomaly fallback path the reading
`{power: 1000, temperature: 200, vibration: 50}` yields
`anomaly_score = 0.8` and `is_anomaly = true`; the accumulated score
(0.3 if temperature > 80, plus 0.3 if vibration > 5, plus 0.2 if
power > 250) never exceeds 0.8, so the `min(1.0, ·)` cap is never the
binding constraint on any reading. -/
theorem anomaly_extreme_score :
    (detectAnomaliesFallback 1000 200 50).anomaly_score = 0.8 ∧
    (detectAnomaliesFallback 1000 200 50).is_anomaly = true ∧
    (∀ p t v : ℚ, (detectAnomaliesFallback p t v).anomaly_score ≤ 0.8) := by
  refine ⟨by norm_num [detectAnomaliesFallback, min_def],
    by norm_num [detectAnomaliesFallback], ?_⟩
  intro p t v
  simp only [detectAnomaliesFallback]
  have h : (if p > 250 then
      (if v > 5 then (if t > 80 then (0:ℚ) + 0.3 else 0) + 0.3
        else (if t > 80 then (0:ℚ) + 0.3 else 0)) + 0.2
      else (if v > 5 then (if t > 80 then (0:ℚ) + 0.3 else 0) + 0.3
        else (if t > 80 then (0:ℚ) + 0.3 else 0))) ≤ 0.8 := by
    split_ifs <;> norm_num
  exact le_trans (min_le_right _ _) h

/-- C2 (counterexample): the claimed invariant
`lower_bound[i] ≤ forecast[i] ≤ upper_bound[i]` fails on the fallback
path: with history `[1000]` (and a zero perturbation) the forecast value
is 1000 but the upper bound is `min(300, 1000 + 10) = 300 < 1000`. -/
theorem forecast_bound_invariant_false :
    (forecastFallback [1000] 1 (fun _ => 0)).forecast = [1000] ∧
    (forecastFallback [1000] 1 (fun _ => 0)).upper_bound = [300] ∧
    ¬ ((1000 : ℚ) ≤ 300) := by
  refine ⟨?_, ?_, by norm_num⟩
  · norm_num [forecastFallback, fallbackLoop, max_def]
  · norm_num [forecastFallback, fallbackLoop, max_def, min_def]

/-- C2 (amended): on the fallback path, `lower_bound[i] ≤ forecast[i]`
holds for every i, and `forecast[i] ≤ upper_bound[i]` holds exactly when
`forecast[i] ≤ 300` (the upper bound is clamped to the ceiling 300, so a
forecast value above 300 exceeds its own upper bound); on the trained
path the three arrays are the model's columns verbatim, so the invariant
holds whenever the model's own rows are ordered. -/
theorem forecast_bound_order
    (hist : List ℚ) (periods i j : ℕ) (noise : ℕ → ℚ) (x lo hi : ℚ)
    (frame : List (ℚ × ℚ × ℚ)) (x2 lo2 hi2 : ℚ)
    (hx : (forecastFallback hist periods noise).forecast[i]? = some x)
    (hlo : (forecastFallback hist periods noise).lower_bound[i]? = some lo)
    (hhi : (forecastFallback hist periods noise).upper_bound[i]? = some hi)
    (hrows : ∀ row ∈ frame, row.2.1 ≤ row.1 ∧ row.1 ≤ row.2.2)
    (hx2 : (prophetResult frame periods).forecast[j]? = some x2)
    (hlo2 : (prophetResult frame periods).lower_bound[j]? = some lo2)
    (hhi2 : (prophetResult frame periods).upper_bound[j]? = some hi2) :
    (lo ≤ x ∧ (x ≤ 300 → x ≤ hi)) ∧ (lo2 ≤ x2 ∧ x2 ≤ hi2) := by
  constructor
  · simp only [forecastFallback, List.getElem?_map] at hx hlo hhi
    rw [hx] at hlo hhi
    simp only [Option.map_some', Option.some.injEq] at hlo hhi
    have hmem : x ∈ fallbackLoop noise 0 periods (hist.getLastD 100) :=
      List.getElem?_mem hx
    have h20 : (20 : ℚ) ≤ x := fallbackLoop_ge_20 noise 0 periods _ x hmem
    constructor
    · rw [← hlo]
      exact max_le (by linarith) (by linarith)
    · intro h300
      rw [← hhi]
      exact le_min h300 (by linarith)
  · simp only [prophetResult, List.getElem?_map] at hx2 hlo2 hhi2
    rcases hrw : (ilocLast periods frame)[j]? with _ | row
    · rw [hrw] at hx2
      simp at hx2
    · rw [hrw] at hx2 hlo2 hhi2
      simp only [Option.map_some', Option.some.injEq] at hx2 hlo2 hhi2
      have hmem : row ∈ frame := by
        have h := List.getElem?_mem hrw
        simp only [ilocLast] at h
        split at h
        · exact h
        · exact List.drop_subset _ _ h
      rcases hrows row hmem with ⟨h1, h2⟩
      rw [← hx2, ← hlo2, ← hhi2]
      exact ⟨h1, h2⟩

/-- C2 (witness): concrete instantiation — fallback on history `[]`,
horizon 1, zero perturbation gives forecast 100 with bounds 90/110;
trained path with the single ordered model row `(50, 40, 60)`. -/
theorem forecast_bound_order_witness :
    (((90 : ℚ) ≤ 100 ∧ ((100 : ℚ) ≤ 300 → (100 : ℚ) ≤ 110)) ∧
      ((40 : ℚ) ≤ 50 ∧ (50 : ℚ) ≤ 60)) :=
  forecast_bound_order [] 1 0 0 (fun _ => 0) 100 90 110
    [(50, 40, 60)] 50 40 60
    (by norm_num [forecastFallback, fallbackLoop, max_def])
    (by norm_num [forecastFallback, fallbackLoop, max_def, min_def])
    (by norm_num [forecastFallback, fallbackLoop, max_def, min_def])
    (by intro row hrow; simp only [List.mem_singleton] at hrow; rw [hrow]; norm_num)
    (by norm_num [prophetResult, ilocLast])
    (by norm_num [prophetResult, ilocLast])
    (by norm_num [prophetResult, ilocLast])

/-- C3 (counterexample): with horizon 0 the trained path does NOT return
empty arrays: the slice `forecast.iloc[-0:]` is `[0:]`, the whole
prediction frame, so with a 10-row frame the returned forecast has
length 10 ≠ 0. -/
theorem forecast_horizon_zero_not_empty :
    forecast_energy true (some (List.replicate 10 ((0 : ℚ), (0 : ℚ), (0 : ℚ))))
        [] 0 (fun _ => 0) 1
      = some (prophetResult (List.replicate 10 ((0 : ℚ), (0 : ℚ), (0 : ℚ))) 0) ∧
    (prophetResult (List.replicate 10 ((0 : ℚ), (0 : ℚ), (0 : ℚ))) 0).forecast.length = 10 ∧
    (10 : ℕ) ≠ 0 := by
  refine ⟨rfl, ?_, by norm_num⟩
  simp [prophetResult, ilocLast]

/-- C3 (amended): the three returned arrays always have equal lengths;
they equal the horizon on the fallback path for EVERY horizon ≥ 0 and
any history, and on the trained path for every horizon ≥ 1 (the
prediction frame always has fitted-history-length + horizon ≥ horizon
rows); at horizon = 0 the trained path instead returns the whole
prediction frame, because the Python slice `iloc[-0:]` selects all
rows. -/
theorem forecast_lengths (frame : List (ℚ × ℚ × ℚ)) (periods : ℕ)
    (h1 : 1 ≤ periods) (h2 : periods ≤ frame.length) :
    (∀ (hist : List ℚ) (m : ℕ) (noise : ℕ → ℚ),
        (forecastFallback hist m noise).forecast.length = m ∧
        (forecastFallback hist m noise).lower_bound.length = m ∧
        (forecastFallback hist m noise).upper_bound.length = m) ∧
    ((prophetResult frame periods).forecast.length = periods ∧
     (prophetResult frame periods).lower_bound.length = periods ∧
     (prophetResult frame periods).upper_bound.length = periods) := by
  constructor
  · intro hist m noise
    refine ⟨?_, ?_, ?_⟩ <;>
      simp [forecastFallback, fallbackLoop_length]
  · have hlen : (ilocLast periods frame).length = periods := by
      simp only [ilocLast]
      rw [if_neg (by omega)]
      rw [List.length_drop]
      omega
    refine ⟨?_, ?_, ?_⟩ <;>
      simp [prophetResult, hlen]

/-- C3 (witness): concrete instantiation with a one-row prediction frame
and horizon 1. -/
theorem forecast_lengths_witness :
    (∀ (hist : List ℚ) (m : ℕ) (noise : ℕ → ℚ),
        (forecastFallback hist m noise).forecast.length = m ∧
        (forecastFallback hist m noise).lower_bound.length = m ∧
        (forecastFallback hist m noise).upper_bound.length = m) ∧
    ((prophetResult [((0 : ℚ), (0 : ℚ), (0 : ℚ))] 1).forecast.length = 1 ∧
     (prophetResult [((0 : ℚ), (0 : ℚ), (0 : ℚ))] 1).lower_bound.length = 1 ∧
     (prophetResult [((0 : ℚ), (0 : ℚ), (0 : ℚ))] 1).upper_bound.length = 1) :=
  forecast_lengths [((0 : ℚ), (0 : ℚ), (0 : ℚ))] 1 (by norm_num) (by simp)

/-- C5 (counterexample): the claim misdescribes the fallback loop in two
ways.  (a) Each step sets `last` to the UNclamped `next_val`, not to the
clamped appended value: from seed 100 with perturbations −200 then +150
the source loop yields `[20, 50]` while the claimed clamped-last loop
yields `[20, 170]`.  (b) On empty history the forecast is flat at the
seed 100 (under zero perturbation), not floor-valued: 100 ≠ 20. -/
theorem forecast_fallback_step_claim_false :
    fallbackLoop (fun i => if i = 0 then -200 else 150) 0 2 100 = [20, 50] ∧
    fallbackLoopClampedLast (fun i => if i = 0 then -200 else 150) 0 2 100 = [20, 170] ∧
    ([20, 50] : List ℚ) ≠ [20, 170] ∧
    (forecastFallback [] 3 (fun _ => 0)).forecast = [100, 100, 100] ∧
    ((100 : ℚ) ≠ 20) := by
  refine ⟨?_, ?_, by norm_num, ?_, by norm_num⟩ <;>
    norm_num [fallbackLoop, fallbackLoopClampedLast, forecastFallback, max_def]

/-- C5 (amended): the fallback path is a total function that never fails
on empty history: it returns exactly `horizon` points; the seed is 100
when the history is empty, and with zero perturbations the forecast is
then flat at 100 (each appended value is clamped by `max 20 ·`, here not
binding); each step appends `max(20, last + perturbation)` but carries
the UNclamped `last + perturbation` into the next step. -/
theorem forecast_fallback_empty_history :
    (∀ (periods : ℕ) (noise : ℕ → ℚ),
        (forecastFallback [] periods noise).forecast.length = periods) ∧
    (∀ periods : ℕ,
        (forecastFallback [] periods (fun _ => 0)).forecast =
          List.replicate periods 100) ∧
    (∀ (noise : ℕ → ℚ) (i n : ℕ) (last : ℚ),
        fallbackLoop noise i (n + 1) last =
          max 20 (last + noise i) :: fallbackLoop noise (i + 1) n (last + noise i)) := by
  refine ⟨?_, ?_, ?_⟩
  · intro periods noise
    simp [forecastFallback, fallbackLoop_length]
  · intro periods
    have key : ∀ (n i : ℕ),
        fallbackLoop (fun _ => 0) i n 100 = List.replicate n 100 := by
      intro n
      induction n with
      | zero => intro i; rfl
      | succ m ih =>
          intro i
          simp only [fallbackLoop, List.replicate_succ]
          norm_num [max_def, ih]
    simpa [forecastFallback] using key periods 0
  · intro noise i n last
    rfl

/-- C6: when no model is loaded for a capability (`loaded = false`, the
artifact-absent branch), every result carries the fallback provenance
tag: `'fallback'` for the forecast, `'heuristic'` for the anomaly and
the maintenance recommendation, for every input and any recursion
depth ≥ 1. -/
theorem all_absent_provenance :
    (∀ (pred : Option (List (ℚ × ℚ × ℚ))) (hist : List ℚ) (periods : ℕ)
        (noise : ℕ → ℚ) (fuel : ℕ),
        forecast_energy false pred hist periods noise (fuel + 1) =
          some (forecastFallback hist periods noise) ∧
        (forecastFallback hist periods noise).model = "fallback") ∧
    (∀ (tr : Option AnomalyResult) (p t v r pr : ℚ) (fuel : ℕ),
        detect_anomalies false tr p t v r pr (fuel + 1) =
          some (detectAnomaliesFallback p t v) ∧
        (detectAnomaliesFallback p t v).model = "heuristic") ∧
    (∀ (tr : Option MaintenanceResult) (p t v r pr : ℚ) (fuel : ℕ),
        ∃ m, recommend_maintenance false tr p t v r pr (fuel + 1) = some m ∧
          m.model = "heuristic") := by
  refine ⟨?_, ?_, ?_⟩
  · intro pred hist periods noise fuel
    exact ⟨by simp [forecast_energy], rfl⟩
  · intro tr p t v r pr fuel
    exact ⟨by simp [detect_anomalies], rfl⟩
  · intro tr p t v r pr fuel
    have hdisp : recommend_maintenance false tr p t v r pr (fuel + 1) =
        recommendMaintenanceFallback p t v := by
      simp [recommend_maintenance]
    rw [hdisp, recommendMaintenanceFallback_eq]
    exact ⟨_, rfl, rfl⟩

/-- C7: the recommendation fallback computes the risk score as the sum
of 1 if temperature > 80, 1 if vibration > 5 and 0.5 if power > 250,
returns `risk_level = min(3, floor(risk_score))`, maps it through the
fixed table {0: NONE, 1: LOW, 2: MEDIUM, 3: HIGH}, and returns
"Schedule routine maintenance" iff risk_score > 1, else
"Normal operation", with provenance `'heuristic'`. -/
theorem recommend_fallback_formula (p t v : ℚ) :
    recommendMaintenanceFallback p t v =
      some { risk_level := min 3 ⌊riskScoreClaim p t v⌋
             urgency := urgencyTableClaim (min 3 ⌊riskScoreClaim p t v⌋)
             recommendation :=
               if riskScoreClaim p t v > 1 then "Schedule routine maintenance"
               else "Normal operation"
             model := "heuristic" } :=
  recommendMaintenanceFallback_eq p t v

/-- C8: the anomaly fallback heuristic is monotone — if every stressor
(temperature, vibration, power) of reading B is ≥ the corresponding
stressor of reading A, then the heuristic anomaly score of B is ≥ that
of A. -/
theorem anomaly_fallback_monotone (pA tA vA pB tB vB : ℚ)
    (hp : pA ≤ pB) (ht : tA ≤ tB) (hv : vA ≤ vB) :
    (detectAnomaliesFallback pA tA vA).anomaly_score ≤
      (detectAnomaliesFallback pB tB vB).anomaly_score := by
  unfold detectAnomaliesFallback
  dsimp only
  refine min_le_min le_rfl ?_
  split_ifs <;> linarith

/-- C8 (witness): the spec's own monotonicity scenario,
`score(power=100, temp=45, vib=2) ≤ score(power=250, temp=90, vib=10)`
on the fallback path. -/
theorem anomaly_fallback_monotone_witness :
    (detectAnomaliesFallback 100 45 2).anomaly_score ≤
      (detectAnomaliesFallback 250 90 10).anomaly_score :=
  anomaly_fallback_monotone 100 45 2 250 90 10 (by norm_num) (by norm_num)
    (by norm_num)

/-- C9: for a nonempty batch, the efficiency score starts at 100, is
decremented by 15 if average power > 30, by 10 if average
temperature > 75, by 8 if power variance > 50, by 7 if peak power
exceeds 1.5 × average power, and by 20 if any CRITICAL or HIGH severity
alert is present, then clamped to [0, 100]; when only the high average
power rule triggers, exactly one recommendation entry (priority HIGH) is
emitted and the score is 85. -/
theorem efficiency_score_rules (machine_id : String) (readings : List Reading)
    (alerts : List Alert) (hne : readings ≠ []) :
    ((generate_recommendations machine_id readings alerts).efficiency_score =
      max 0 (min 100
        (100 - (if npMean (powersOf readings) > 30 then 15 else 0)
             - (if npMean (tempsOf readings) > 75 then 10 else 0)
             - (if npVar (powersOf readings) > 50 then 8 else 0)
             - (if npMax (powersOf readings) > npMean (powersOf readings) * 1.5
                  then 7 else 0)
             - (if (criticalAlerts alerts).isEmpty then 0 else 20)))) ∧
    ((30 < npMean (powersOf readings) ∧
      npMean (tempsOf readings) ≤ 75 ∧
      npVar (powersOf readings) ≤ 50 ∧
      npMax (powersOf readings) ≤ npMean (powersOf readings) * 1.5 ∧
      criticalAlerts alerts = []) →
      (generate_recommendations machine_id readings alerts).efficiency_score = 85 ∧
      (generate_recommendations machine_id readings alerts).recommendations.map
          (fun e => e.priority) = ["HIGH"]) := by
  have hne' : readings.isEmpty = false := by
    simp [List.isEmpty_iff, hne]
  constructor
  · unfold generate_recommendations
    rw [if_neg (by simp [hne'])]
    dsimp only
    split_ifs <;> norm_num [min_def, max_def]
  · rintro ⟨h1, h2, h3, h4, h5⟩
    unfold generate_recommendations
    rw [if_neg (by simp [hne'])]
    dsimp only
    rw [if_pos h1, if_pos h1, if_neg (not_lt.mpr h2), if_neg (not_lt.mpr h2),
      if_neg (not_lt.mpr h3), if_neg (not_lt.mpr h3), if_neg (not_lt.mpr h4),
      if_neg (not_lt.mpr h4), h5]
    norm_num [min_def, max_def]

/-- C9 (witness): the batch `powers = [28, 35, 42]`, all temperatures
60, no alerts — average power 35 > 30, average temperature 60,
variance 98/3 ≤ 50, peak/avg = 1.2 ≤ 1.5 — triggers exactly the
average-power rule: score 85, one HIGH-priority entry. -/
theorem efficiency_score_rules_witness :
    (generate_recommendations "m1"
        [⟨some 28, some 60⟩, ⟨some 35, some 60⟩, ⟨some 42, some 60⟩]
        []).efficiency_score = 85 ∧
    (generate_recommendations "m1"
        [⟨some 28, some 60⟩, ⟨some 35, some 60⟩, ⟨some 42, some 60⟩]
        []).recommendations.map (fun e => e.priority) = ["HIGH"] := by
  refine (efficiency_score_rules "m1"
    [⟨some 28, some 60⟩, ⟨some 35, some 60⟩, ⟨some 42, some 60⟩] []
    (by simp)).2 ⟨?_, ?_, ?_, ?_, ?_⟩
  · norm_num [npMean, powersOf]
  · norm_num [npMean, tempsOf]
  · norm_num [npVar, npMean, powersOf]
  · norm_num [npMax, npMean, powersOf, max_def]
  · rfl

/-- C10: with an empty readings list, `generate_recommendations` returns
efficiency score 0 and no recommendation entries, whatever the alerts
list is — it neither starts from the score 100 nor emits the default
rule-6 entry. -/
theorem generate_recommendations_empty_readings :
    ∀ (machine_id : String) (alerts : List Alert),
      generate_recommendations machine_id [] alerts =
        { recommendations := [], efficiency_score := 0 } := by
  intro machine_id alerts
  rfl

end AIService
